import Mathlib

/-!
Shallow embedding of the plasma-benchmarking repository.

Sources embedded here:
  - src/dataset.py : the Dataset class (construction, roundtrip_file,
    roundtrip_stream, roundtrip_table) with its cached file/stream handles
    modelled as explicit read positions in DsState;
  - src/plasma-benchmarking.py : the stateless roundtrip_file and
    roundtrip_file_stream functions;
  - src/plasma_benchmarking.py : the driver main (dataset construction loop,
    the per-dataset timing loop with REPS and WARMUPS).

The external plasma store client is modelled by a trace of operations
(create / seal / get_buffers); client.create returns a fresh buffer whose
contents are unspecified in plasma, modelled here as zero-filled.  The
external pyarrow codecs (csv / json / parquet readers and the record-batch
stream writer) are parameters collected in the Arrow structure; the
MockOutputStream size-counting sink is the length of the serialized bytes.
-/

/-- Bytes are modelled as natural numbers. -/
abbrev Byte := Nat

/-- A plasma object id, 20 random bytes in the source (random_obj_id). -/
abbrev ObjId := List Byte

/-- Error kinds surfaced by the embedded code.  The Python code raises
IndexError (missing extension component, or the byte-copy loop running past
the store buffer) and AttributeError (None.schema for unsupported formats).
The constructors unsupportedFormatError and sizeMismatchError embed error
kinds named by the specification; the code under src never raises them. -/
inductive PyError
  | indexError
  | attributeError
  | bufferOverflow
  | unsupportedFormatError
  | sizeMismatchError
deriving DecidableEq, Repr, Inhabited

deriving instance DecidableEq for Except

/-- One call into the plasma client, as recorded in an operation trace. -/
inductive PlasmaOp
  | create (id : ObjId) (size : Nat)
  | seal (id : ObjId)
  | getBuffers (ids : List ObjId)
deriving DecidableEq, Repr

/-- Whether a trace element is a client.create call. -/
def isCreateOp : PlasmaOp → Bool
  | .create _ _ => true
  | _ => false

/-- Whether a trace element is a client.seal call. -/
def isSealOp : PlasmaOp → Bool
  | .seal _ => true
  | _ => false

/-- Whether a trace element is a client.get_buffers call. -/
def isGetOp : PlasmaOp → Bool
  | .getBuffers _ => true
  | _ => false

/-- random_obj_id (dataset.py lines 11-13): plasma.ObjectID(np.random.bytes(20)).
The numpy global random stream is r; the k-th call consumes bytes
r (20*k) .. r (20*k+19). -/
def random_obj_id (r : Nat → Byte) (k : Nat) : ObjId :=
  (List.range 20).map fun i => r (20 * k + i)

/-- Python str.replace with a bounded-recursion worker: scan left to right,
replace each non-overlapping occurrence of pat by rep.  The fuel argument
only drives structural recursion; fuel = length of the string suffices
because every step consumes at least one character. -/
def replaceFuel (pat rep : List Char) : Nat → List Char → List Char
  | _, [] => []
  | 0, s => s
  | Nat.succ fuel, c :: rest =>
    if pat ≠ [] ∧ pat.isPrefixOf (c :: rest) then
      rep ++ replaceFuel pat rep fuel (List.drop pat.length (c :: rest))
    else
      c :: replaceFuel pat rep fuel rest

/-- Python s.replace(pat, rep) for a nonempty pattern. -/
def pyReplace (s pat rep : List Char) : List Char :=
  replaceFuel pat rep s.length s

/-- Python substring membership (pat in s): pat is a prefix of some suffix. -/
def containsSub (pat s : List Char) : Bool :=
  s.tails.any fun t => pat.isPrefixOf t

/-- Python s.split(sep) for a single-character separator: "a..b".split(".")
gives ["a", "", "b"]. -/
def splitOnChar (c : Char) : List Char → List (List Char)
  | [] => [[]]
  | x :: rest =>
    let r := splitOnChar c rest
    if x = c then [] :: r
    else
      match r with
      | [] => [[x]]
      | h :: t => (x :: h) :: t

/-- Output path formula shared by dataset.py line 23 and
plasma-benchmarking.py lines 43 and 69:
filename.replace(".", "_out.").replace("in", "out"). -/
def outName (filename : List Char) : List Char :=
  pyReplace (pyReplace filename ".".toList "_out.".toList) "in".toList "out".toList

/-- An in-memory pyarrow table: column names plus column data.  Its internal
structure is irrelevant to the claims; what matters is that the external
serializer is a deterministic function of the table. -/
structure Table where
  colNames : List (List Char)
  colData : List (List Int)
deriving DecidableEq, Repr, Inhabited

/-- The external pyarrow collaborators: format readers and the
RecordBatchStreamWriter wire serialization. -/
structure Arrow where
  readCsv : List Byte → Table
  readJson : List Byte → Table
  readParquet : List Byte → Table
  serialize : Table → List Byte

/-- The format dispatch of dataset.py lines 33-38: csv / json / parquet are
parsed, any other extension leaves self.table = None. -/
def readTable (A : Arrow) (ty : List Char) (content : List Byte) : Option Table :=
  if ty = "csv".toList then some (A.readCsv content)
  else if ty = "json".toList then some (A.readJson content)
  else if ty = "parquet".toList then some (A.readParquet content)
  else none

/-- The immutable attributes a Dataset (dataset.py) holds after __init__.
client is omitted (the store is modelled by traces); the mutable cached
handles self.file and self.stream live in DsState. -/
structure Dataset where
  filename : List Char
  is_huge : Bool
  type : List Char
  can_use_file : Bool
  out_filename : List Char
  file_bytes : Nat
  stream_bytes : Nat
  table : Table
  table_bytes : Nat
deriving DecidableEq, Repr, Inhabited

/-- The mutable state of a Dataset: the read position of the cached
self.file handle and of the cached self.stream handle (none = not yet
opened; opening starts at position 0 and reading advances it). -/
structure DsState where
  filePos : Option Nat
  streamPos : Option Nat
deriving DecidableEq, Repr, Inhabited

/-- Dataset.__init__ (dataset.py lines 16-45).  filename.split(".")[1] with
fewer than two components raises IndexError; an unsupported extension leaves
self.table = None so self.table.schema at line 42 raises AttributeError.
table_bytes is the MockOutputStream size: the length of the wire
serialization of the table. -/
def mkDataset (A : Arrow) (filename : List Char) (content : List Byte) :
    Except PyError Dataset :=
  match (splitOnChar '.' filename).get? 1 with
  | none => .error .indexError
  | some ty =>
    match readTable A ty content with
    | none => .error .attributeError
    | some t =>
      .ok { filename := filename
            is_huge := containsSub "huge_".toList filename
            type := ty
            can_use_file := ty = "csv".toList ∨ ty = "json".toList
            out_filename := outName filename
            file_bytes := content.length
            stream_bytes := content.length
            table := t
            table_bytes := (A.serialize t).length }

/-- Result of one embedded round-trip call: the error raised (if any), the
updated handle state, how many payload bytes were actually copied into the
store buffer, the output file written (path and bytes, if any), and the
trace of plasma client calls. -/
structure RFOut where
  err : Option PyError
  state : DsState
  copied : Nat
  output : Option (List Char × List Byte)
  trace : List PlasmaOp
deriving DecidableEq, Repr

/-- Dataset.roundtrip_file (dataset.py lines 48-66).  Early return when the
format has no direct byte access.  The cached self.file handle is opened on
first use and never rewound, so self.file.read() returns the bytes from the
current position to the end.  client.create allocates a buffer of
file_bytes (the size recorded at construction) whose contents are
unspecified, modelled as zeros; the byte-copy loop raises IndexError once i
reaches the buffer length, after the whole buffer has been overwritten; on
success the sealed buffer is written to out_filename. -/
def Dataset.roundtrip_file (d : Dataset) (s : DsState) (content : List Byte)
    (oid : ObjId) : RFOut :=
  if d.can_use_file then
    let pos := s.filePos.getD 0
    let data := content.drop pos
    let s1 : DsState := ⟨some content.length, s.streamPos⟩
    if data.length ≤ d.file_bytes then
      let sealed := data ++ List.replicate (d.file_bytes - data.length) 0
      ⟨none, s1, data.length, some (d.out_filename, sealed),
        [.create oid d.file_bytes, .seal oid, .getBuffers [oid]]⟩
    else
      ⟨some .indexError, s1, d.file_bytes, none, [.create oid d.file_bytes]⟩
  else
    ⟨none, s, 0, none, []⟩

/-- Dataset.roundtrip_stream (dataset.py lines 69-81).  The cached
self.stream handle is opened on first use and never rewound;
stream.readinto(buf) copies min(len(buf), bytes remaining) bytes and leaves
the rest of the store buffer untouched (modelled as zeros); the sealed
buffer is written to out_filename. -/
def Dataset.roundtrip_stream (d : Dataset) (s : DsState) (content : List Byte)
    (oid : ObjId) : RFOut :=
  let pos := s.streamPos.getD 0
  let avail := content.drop pos
  let n := min d.stream_bytes avail.length
  let sealed := avail.take n ++ List.replicate (d.stream_bytes - n) 0
  ⟨none, ⟨s.filePos, some (pos + n)⟩, n, some (d.out_filename, sealed),
    [.create oid d.stream_bytes, .seal oid, .getBuffers [oid]]⟩

/-- Dataset.roundtrip_table (dataset.py lines 84-98).  client.create
allocates table_bytes; the RecordBatchStreamWriter writes the wire
serialization of the table through a FixedSizeBufferWriter, which fails if
the serialization exceeds the buffer; the sealed buffer is read back and
deserialized, and no output file is written. -/
def Dataset.roundtrip_table (serialize : Table → List Byte) (d : Dataset)
    (s : DsState) (oid : ObjId) : RFOut :=
  let wire := serialize d.table
  if wire.length ≤ d.table_bytes then
    ⟨none, s, wire.length, none,
      [.create oid d.table_bytes, .seal oid, .getBuffers [oid]]⟩
  else
    ⟨some .bufferOverflow, s, 0, none, [.create oid d.table_bytes]⟩

/-- Result of one stateless round trip from plasma-benchmarking.py (file
handles are opened and closed inside the call, so there is no state). -/
structure ScriptOut where
  err : Option PyError
  copied : Nat
  output : Option (List Char × List Byte)
  trace : List PlasmaOp
deriving DecidableEq, Repr

/-- roundtrip_file (plasma-benchmarking.py lines 37-58).  The file is opened
fresh, read whole; client.create is sized by len(file_bytes), so the
byte-copy loop always fits exactly; the sealed buffer is written to
outName filename. -/
def roundtrip_file_script (filename : List Char) (content : List Byte)
    (oid : ObjId) : ScriptOut :=
  let size := content.length
  if content.length ≤ size then
    ⟨none, content.length,
      some (outName filename, content ++ List.replicate (size - content.length) 0),
      [.create oid size, .seal oid, .getBuffers [oid]]⟩
  else
    ⟨some .indexError, size, none, [.create oid size]⟩

/-- roundtrip_file_stream (plasma-benchmarking.py lines 61-83).  The input
stream is opened fresh; client.create is sized by os.path.getsize, which is
the current length of the file content; stream.readinto copies
min(len(buf), len(content)) bytes; the sealed buffer is written to
outName filename. -/
def roundtrip_file_stream_script (filename : List Char) (content : List Byte)
    (oid : ObjId) : ScriptOut :=
  let size := content.length
  let n := min size content.length
  ⟨none, n, some (outName filename, content.take n ++ List.replicate (size - n) 0),
    [.create oid size, .seal oid, .getBuffers [oid]]⟩

/-- REPS constant of plasma_benchmarking.py main (line 25). -/
def REPS : Nat := 1000

/-- WARMUPS constant of plasma_benchmarking.py main (line 26). -/
def WARMUPS : Nat := 100

/-- The timed repetition count of the driver: n = REPS - WARMUPS
(plasma_benchmarking.py line 64). -/
def measureTimedCalls (R W : Nat) : Nat := R - W

/-- Total invocations of one operation over one measurement: the warmup
timeit call uses the literal number=100 (plasma_benchmarking.py lines 68,
73, 78) followed by n = R - W timed calls. -/
def measureTotalCalls (R W : Nat) : Nat := 100 + (R - W)

/-- Iterate roundtrip_stream k times starting at random-stream call index
idx, threading the cached-handle state, and collect the plasma trace. -/
def runStream (d : Dataset) (content : List Byte) (r : Nat → Byte) :
    Nat → Nat → DsState → List PlasmaOp
  | 0, _, _ => []
  | Nat.succ k, idx, s =>
    let o := d.roundtrip_stream s content (random_obj_id r idx)
    o.trace ++ runStream d content r k (idx + 1) o.state

/-- Which round-trip variant a printed timing row came from. -/
inductive OpKind
  | file
  | stream
  | table
deriving DecidableEq, Repr

/-- One row of the driver output tables (plasma_benchmarking.py lines
71, 76, 81): the dataset name, the operation, and the recorded repetition
count n = R - W. -/
structure Row where
  name : List Char
  op : OpKind
  reps : Nat
deriving DecidableEq, Repr

/-- The timing rows the driver produces for one dataset
(plasma_benchmarking.py lines 66-81): roundtrip_file is timed only when
can_use_file; roundtrip_stream and roundtrip_table are always timed. -/
def rowsFor (d : Dataset) (R W : Nat) : List Row :=
  (if d.can_use_file then [⟨d.filename, .file, R - W⟩] else []) ++
    [⟨d.filename, .stream, R - W⟩, ⟨d.filename, .table, R - W⟩]

/-- The dataset construction loop of main (plasma_benchmarking.py lines
51-53): one Dataset per input file, sequentially; the first raised
exception propagates (there is no try/except in main). -/
def buildDatasets (A : Arrow) :
    List (List Char × List Byte) → Except PyError (List Dataset)
  | [] => .ok []
  | f :: rest => do
    let d ← mkDataset A f.1 f.2
    let ds ← buildDatasets A rest
    .ok (d :: ds)

/-- main (plasma_benchmarking.py lines 44-83): build every Dataset first,
then process each one (skipping huge datasets when the omit-huge flag was
given), emitting its timing rows.  Any construction failure aborts the run
before any timing happens. -/
def mainRun (A : Arrow) (checkHuge : Bool)
    (files : List (List Char × List Byte)) (R W : Nat) :
    Except PyError (List Row) := do
  let ds ← buildDatasets A files
  .ok ((ds.filter fun d => checkHuge || !d.is_huge).flatMap fun d => rowsFor d R W)

/-- A concrete instance of the external pyarrow collaborators, used to
evaluate the embedding on concrete inputs. -/
def arrow0 : Arrow where
  readCsv := fun c => ⟨["c".toList], [c.map Int.ofNat]⟩
  readJson := fun c => ⟨["j".toList], [c.map Int.ofNat]⟩
  readParquet := fun c => ⟨["p".toList], [c.map Int.ofNat]⟩
  serialize := fun t => List.replicate (t.colNames.length + 1) 7

/-- Concrete object id used in evaluations. -/
def oidA : ObjId := List.replicate 20 1

/-- A second, distinct concrete object id. -/
def oidB : ObjId := List.replicate 20 2

/-- Concrete input path for a small csv fixture. -/
def inACsv : List Char := "in/a.csv".toList

/-- The Dataset built by arrow0 from in/a.csv with one content byte 1. -/
def dCsv : Dataset := ((mkDataset arrow0 inACsv [1]).toOption).getD default

/-- A Dataset built when the file content was [7, 8, 9] (so file_bytes = 3),
used to evaluate a later call after the file shrank. -/
def dShrink : Dataset := ((mkDataset arrow0 inACsv [7, 8, 9]).toOption).getD default

/-- Concrete input path with a parquet extension. -/
def inPParquet : List Char := "in/p.parquet".toList

/-- The Dataset built by arrow0 from in/p.parquet. -/
def dParquet : Dataset := ((mkDataset arrow0 inPParquet [5]).toOption).getD default

/-- Inversion of a successful Dataset construction: what __init__ stored in
each attribute. -/
theorem mkDataset_ok {A : Arrow} {f : List Char} {c : List Byte} {d : Dataset}
    (h : mkDataset A f c = .ok d) :
    (splitOnChar '.' f).get? 1 = some d.type ∧
    readTable A d.type c = some d.table ∧
    d.can_use_file = decide (d.type = "csv".toList ∨ d.type = "json".toList) ∧
    d.out_filename = outName f ∧
    d.file_bytes = c.length ∧
    d.stream_bytes = c.length ∧
    d.table_bytes = (A.serialize d.table).length ∧
    d.filename = f := by
  unfold mkDataset at h
  split at h
  · exact absurd h (by simp)
  next ty hty =>
    split at h
    · exact absurd h (by simp)
    next t ht =>
      injection h with h
      subst h
      exact ⟨hty, ht, rfl, rfl, rfl, rfl, rfl, rfl⟩

/-- Each roundtrip_stream call records exactly one create, one seal and one
get_buffers, so iterating it k times records exactly k of each. -/
theorem runStream_counts (d : Dataset) (content : List Byte) (r : Nat → Byte) :
    ∀ k idx s,
      (runStream d content r k idx s).countP isCreateOp = k ∧
      (runStream d content r k idx s).countP isSealOp = k ∧
      (runStream d content r k idx s).countP isGetOp = k := by
  intro k
  induction k with
  | zero => intro idx s; simp [runStream]
  | succ n ih =>
    intro idx s
    have h := ih (idx + 1) (d.roundtrip_stream s content (random_obj_id r idx)).state
    simp [runStream, Dataset.roundtrip_stream, List.countP_append,
      List.countP_cons, isCreateOp, isSealOp, isGetOp] at h ⊢
    omega

/-- C1: the raw round trip of plasma-benchmarking.py always writes an output
file byte-for-byte identical to the input, but the Dataset.roundtrip_file of
dataset.py violates byte identity on its second call: the cached file handle
is never rewound, so the second call copies zero bytes and writes the
unfilled store buffer instead of the input bytes. -/
theorem c1_raw_roundtrip_identity :
    (∀ filename content oid,
      (roundtrip_file_script filename content oid).err = none ∧
      (roundtrip_file_script filename content oid).output
        = some (outName filename, content)) ∧
    mkDataset arrow0 inACsv [1] = .ok dCsv ∧
    (dCsv.roundtrip_file ⟨none, none⟩ [1] oidA).err = none ∧
    (dCsv.roundtrip_file ⟨none, none⟩ [1] oidA).output
      = some (dCsv.out_filename, [1]) ∧
    (dCsv.roundtrip_file (dCsv.roundtrip_file ⟨none, none⟩ [1] oidA).state [1] oidB).err
      = none ∧
    (dCsv.roundtrip_file (dCsv.roundtrip_file ⟨none, none⟩ [1] oidA).state [1] oidB).copied
      = 0 ∧
    (dCsv.roundtrip_file (dCsv.roundtrip_file ⟨none, none⟩ [1] oidA).state [1] oidB).output
      = some (dCsv.out_filename, [0]) ∧
    (dCsv.roundtrip_file (dCsv.roundtrip_file ⟨none, none⟩ [1] oidA).state [1] oidB).output
      ≠ some (dCsv.out_filename, [1]) := by
  refine ⟨fun filename content oid => ?_, by decide, by decide, by decide,
    by decide, by decide, by decide, by decide⟩
  simp [roundtrip_file_script]

/-- C2: neither Dataset round trip is idempotent in its observable output:
the first call writes the input bytes, but the second call reads zero bytes
from the cached (never rewound) handle and writes the unfilled store buffer,
so the second output differs from the first for both roundtrip_stream and
roundtrip_file. -/
theorem c2_roundtrip_not_idempotent :
    (dCsv.roundtrip_stream ⟨none, none⟩ [1] oidA).output
      = some (dCsv.out_filename, [1]) ∧
    (dCsv.roundtrip_stream (dCsv.roundtrip_stream ⟨none, none⟩ [1] oidA).state [1] oidB).copied
      = 0 ∧
    (dCsv.roundtrip_stream (dCsv.roundtrip_stream ⟨none, none⟩ [1] oidA).state [1] oidB).output
      = some (dCsv.out_filename, [0]) ∧
    (dCsv.roundtrip_stream (dCsv.roundtrip_stream ⟨none, none⟩ [1] oidA).state [1] oidB).output
      ≠ (dCsv.roundtrip_stream ⟨none, none⟩ [1] oidA).output ∧
    (dCsv.roundtrip_file (dCsv.roundtrip_file ⟨none, none⟩ [1] oidA).state [1] oidB).output
      ≠ (dCsv.roundtrip_file ⟨none, none⟩ [1] oidA).output := by
  decide

/-- C3 counterexample: with repetitions = 5 and warmupRepetitions = 2 the
driver does not perform 5 timed calls and 7 total invocations; the timed
count is REPS - WARMUPS = 3 and the warmup timeit call uses the literal
number=100, so the totals claimed by the specification are false. -/
theorem c3_counterexample :
    ¬ (measureTimedCalls 5 2 = 5 ∧ measureTotalCalls 5 2 = 7) := by
  decide

/-- C3 amended: one measurement performs 100 warmup invocations (the
hardcoded timeit number) plus REPS - WARMUPS timed invocations; with the
program constants REPS = 1000 and WARMUPS = 100 that is exactly REPS = 1000
total invocations (900 of them timed), and since every roundtrip_stream
invocation creates and seals exactly one store object, exactly
100 + (R - W) store objects are created and sealed over the measurement. -/
theorem c3_measure_invocations :
    (∀ R W, measureTotalCalls R W = 100 + (R - W)) ∧
    measureTotalCalls REPS WARMUPS = REPS ∧
    measureTimedCalls REPS WARMUPS = 900 ∧
    (∀ d content r idx s R W,
      (runStream d content r (measureTotalCalls R W) idx s).countP isCreateOp
        = 100 + (R - W) ∧
      (runStream d content r (measureTotalCalls R W) idx s).countP isSealOp
        = 100 + (R - W)) := by
  refine ⟨fun R W => rfl, by decide, by decide, fun d content r idx s R W => ?_⟩
  have h := runStream_counts d content r (measureTotalCalls R W) idx s
  exact ⟨h.1, h.2.1⟩

/-- C4 counterexample: a file with an unrecognized extension makes Dataset
construction fail with an attribute error (there is no
UnsupportedFormatError anywhere in the code), and because main has no
exception handling the whole run aborts during the construction loop: the
well-formed csv source listed after it is never timed, so the run does not
continue past the unsupported source. -/
theorem c4_counterexample :
    mkDataset arrow0 ("in/test_data.xyz".toList) [1] = .error .attributeError ∧
    mkDataset arrow0 ("in/test_data.xyz".toList) [1]
      ≠ .error .unsupportedFormatError ∧
    mainRun arrow0 true
        [("in/test_data.xyz".toList, [1]), ("in/test_data.csv".toList, [2])]
        REPS WARMUPS
      = .error .attributeError := by
  decide

/-- C4 amended: DataSource construction for an unrecognized extension fails
before any timing, but with an attribute error on the missing table rather
than an UnsupportedFormatError, and the driver does not catch it, so the
failure aborts the entire run instead of skipping that source and
continuing. -/
theorem c4_unsupported_aborts_run :
    (∀ A f c ty, (splitOnChar '.' f).get? 1 = some ty →
      ty ≠ "csv".toList → ty ≠ "json".toList → ty ≠ "parquet".toList →
      mkDataset A f c = .error .attributeError) ∧
    (∀ A checkHuge f c rest R W e,
      mkDataset A f c = .error e →
      mainRun A checkHuge ((f, c) :: rest) R W = .error e) := by
  constructor
  · intro A f c ty hty h1 h2 h3
    unfold mkDataset readTable
    simp only [hty]
    rw [if_neg h1, if_neg h2, if_neg h3]
  · intro A checkHuge f c rest R W e h
    simp only [mainRun, buildDatasets, h]
    rfl

/-- C4 witness: the amended behavior evaluated on a concrete .xyz input. -/
theorem c4_unsupported_aborts_run_witness :
    mkDataset arrow0 ("in/b.xyz".toList) [3] = .error .attributeError ∧
    mainRun arrow0 true [("in/b.xyz".toList, [3])] 1000 100
      = .error .attributeError := by
  have h1 := c4_unsupported_aborts_run.1 arrow0 ("in/b.xyz".toList) [3]
    ("xyz".toList) (by decide) (by decide) (by decide) (by decide)
  exact ⟨h1, c4_unsupported_aborts_run.2 arrow0 true ("in/b.xyz".toList) [3]
    [] 1000 100 .attributeError h1⟩

/-- C5 counterexample: a Dataset constructed when the file held 3 bytes
(file_bytes = 3) and round-tripped after the file shrank to 1 byte copies 1
byte into a 3-byte store buffer, reads a 3-byte buffer back, and silently
writes the mismatched 3 bytes to the output file with no error of any kind:
no SizeMismatchError is reported. -/
theorem c5_counterexample :
    mkDataset arrow0 inACsv [7, 8, 9] = .ok dShrink ∧
    dShrink.file_bytes = 3 ∧
    (dShrink.roundtrip_file ⟨none, none⟩ [7] oidA).copied = 1 ∧
    (dShrink.roundtrip_file ⟨none, none⟩ [7] oidA).err = none ∧
    (dShrink.roundtrip_file ⟨none, none⟩ [7] oidA).output
      = some (dShrink.out_filename, [7, 0, 0]) ∧
    (dShrink.roundtrip_file ⟨none, none⟩ [7] oidA).err
      ≠ some .sizeMismatchError := by
  decide

/-- C5 amended: the code performs no size check.  When the bytes read from
the input fit in the store buffer, roundtrip_file succeeds and writes the
buffer (the read bytes padded with the unwritten buffer contents) to the
output file, silently even when fewer bytes were read than the buffer
holds; when the read bytes exceed the buffer, the byte-copy loop fails with
an untyped index error; no SizeMismatchError exists in the code. -/
theorem c5_no_size_check (d : Dataset) (s : DsState) (content : List Byte)
    (oid : ObjId) (hc : d.can_use_file = true) :
    ((content.drop (s.filePos.getD 0)).length ≤ d.file_bytes →
      (d.roundtrip_file s content oid).err = none ∧
      (d.roundtrip_file s content oid).copied
        = (content.drop (s.filePos.getD 0)).length ∧
      (d.roundtrip_file s content oid).output
        = some (d.out_filename,
            content.drop (s.filePos.getD 0) ++
              List.replicate
                (d.file_bytes - (content.drop (s.filePos.getD 0)).length) 0)) ∧
    (d.file_bytes < (content.drop (s.filePos.getD 0)).length →
      (d.roundtrip_file s content oid).err = some .indexError ∧
      (d.roundtrip_file s content oid).output = none) := by
  unfold Dataset.roundtrip_file
  rw [hc]
  constructor
  · intro h
    rw [if_pos h]
    exact ⟨rfl, rfl, rfl⟩
  · intro h
    rw [if_neg (Nat.not_le.mpr h)]
    exact ⟨rfl, rfl⟩

/-- C5 witness: the no-size-check behavior evaluated on concrete inputs,
one where the file shrank after construction and one where it grew. -/
theorem c5_no_size_check_witness :
    (dShrink.roundtrip_file ⟨none, none⟩ [7] oidA).err = none ∧
    (dShrink.roundtrip_file ⟨none, none⟩ [7, 8, 9, 10] oidB).err
      = some .indexError :=
  ⟨((c5_no_size_check dShrink ⟨none, none⟩ [7] oidA (by decide)).1
      (by decide)).1,
    ((c5_no_size_check dShrink ⟨none, none⟩ [7, 8, 9, 10] oidB (by decide)).2
      (by decide)).1⟩

/-- C6: on the same input file contents, the stateless streamed round trip
of plasma-benchmarking.py writes exactly the same output bytes to exactly
the same output path as the stateless raw round trip, and both succeed. -/
theorem c6_stream_matches_raw (filename : List Char) (content : List Byte)
    (oidR oidS : ObjId) :
    (roundtrip_file_script filename content oidR).output
      = (roundtrip_file_stream_script filename content oidS).output ∧
    (roundtrip_file_script filename content oidR).output
      = some (outName filename, content) ∧
    (roundtrip_file_script filename content oidR).err = none ∧
    (roundtrip_file_stream_script filename content oidS).err = none := by
  simp [roundtrip_file_script, roundtrip_file_stream_script]

/-- C7: every executed round trip uses exactly one fresh 20-byte (160-bit,
within 128 to 160 bits) object handle, creates exactly one store object
under it, seals it exactly once and reads it back via get_buffers exactly
once: each successful call records the trace create, seal, get_buffers on
the single generated id, and two calls whose 20-byte windows of the random
stream differ anywhere yield different handles, so handles are never
reused. -/
theorem c7_handle_lifecycle :
    (∀ r k, (random_obj_id r k).length = 20 ∧
      128 ≤ 8 * (random_obj_id r k).length ∧
      8 * (random_obj_id r k).length ≤ 160) ∧
    (∀ r j k i, i < 20 → r (20 * j + i) ≠ r (20 * k + i) →
      random_obj_id r j ≠ random_obj_id r k) ∧
    (∀ d s content oid,
      (Dataset.roundtrip_stream d s content oid).trace
        = [.create oid d.stream_bytes, .seal oid, .getBuffers [oid]]) ∧
    (∀ d s content oid, d.can_use_file = true →
      (Dataset.roundtrip_file d s content oid).err = none →
      (Dataset.roundtrip_file d s content oid).trace
        = [.create oid d.file_bytes, .seal oid, .getBuffers [oid]]) ∧
    (∀ sz d s oid,
      (Dataset.roundtrip_table sz d s oid).err = none →
      (Dataset.roundtrip_table sz d s oid).trace
        = [.create oid d.table_bytes, .seal oid, .getBuffers [oid]]) := by
  have hlen : ∀ (r : Nat → Byte) (k : Nat), (random_obj_id r k).length = 20 := by
    intro r k
    simp [random_obj_id]
  refine ⟨fun r k => ⟨hlen r k, ?_, ?_⟩, ?_, ?_, ?_, ?_⟩
  · rw [hlen r k]
    decide
  · rw [hlen r k]
  · intro r j k i hi hne heq
    have h1 : (random_obj_id r j)[i]? = some (r (20 * j + i)) := by
      simp [random_obj_id, List.getElem?_map, List.getElem?_range, hi]
    have h2 : (random_obj_id r k)[i]? = some (r (20 * k + i)) := by
      simp [random_obj_id, List.getElem?_map, List.getElem?_range, hi]
    rw [heq, h2] at h1
    exact hne (Option.some.inj h1).symm
  · intro d s content oid
    rfl
  · intro d s content oid hc herr
    unfold Dataset.roundtrip_file at herr ⊢
    rw [hc] at herr ⊢
    by_cases hle : (content.drop (s.filePos.getD 0)).length ≤ d.file_bytes
    · rw [if_pos hle]
      rfl
    · rw [if_neg hle] at herr
      exact absurd herr (by simp)
  · intro sz d s oid herr
    unfold Dataset.roundtrip_table at herr ⊢
    by_cases hle : (sz d.table).length ≤ d.table_bytes
    · rw [if_pos hle]
    · rw [if_neg hle] at herr
      exact absurd herr (by simp)

/-- C7 witness: handle length, distinctness and the three-operation traces
evaluated at concrete inputs. -/
theorem c7_handle_lifecycle_witness :
    (random_obj_id (fun n => n) 0).length = 20 ∧
    random_obj_id (fun n => n) 0 ≠ random_obj_id (fun n => n) 1 ∧
    (dCsv.roundtrip_file ⟨none, none⟩ [1] oidA).trace
      = [.create oidA dCsv.file_bytes, .seal oidA, .getBuffers [oidA]] ∧
    (Dataset.roundtrip_table arrow0.serialize dCsv ⟨none, none⟩ oidB).trace
      = [.create oidB dCsv.table_bytes, .seal oidB, .getBuffers [oidB]] :=
  ⟨(c7_handle_lifecycle.1 (fun n => n) 0).1,
   c7_handle_lifecycle.2.1 (fun n => n) 0 1 0 (by decide) (by decide),
   c7_handle_lifecycle.2.2.2.1 dCsv ⟨none, none⟩ [1] oidA (by decide) (by decide),
   c7_handle_lifecycle.2.2.2.2 arrow0.serialize dCsv ⟨none, none⟩ oidB (by decide)⟩

/-- C8: table_bytes is fixed at construction as the size counted by the
mock sink, namely the length of the wire serialization of the table, and
the table round trip allocates its store object with exactly that size and
fills it exactly (the number of serialized bytes written equals the buffer
size), succeeding with the single create-seal-get trace. -/
theorem c8_table_bytes_exact (A : Arrow) (f : List Char) (c : List Byte)
    (d : Dataset) (s : DsState) (oid : ObjId)
    (h : mkDataset A f c = .ok d) :
    d.table_bytes = (A.serialize d.table).length ∧
    (Dataset.roundtrip_table A.serialize d s oid).err = none ∧
    (Dataset.roundtrip_table A.serialize d s oid).copied = d.table_bytes ∧
    (Dataset.roundtrip_table A.serialize d s oid).trace
      = [.create oid d.table_bytes, .seal oid, .getBuffers [oid]] := by
  have hb := (mkDataset_ok h).2.2.2.2.2.2.1
  have hle : (A.serialize d.table).length ≤ d.table_bytes := le_of_eq hb.symm
  unfold Dataset.roundtrip_table
  rw [if_pos hle]
  exact ⟨hb, rfl, hb.symm, rfl⟩

/-- C8 witness: the exact-size table round trip evaluated on the concrete
csv dataset. -/
theorem c8_table_bytes_exact_witness :
    dCsv.table_bytes = (arrow0.serialize dCsv.table).length ∧
    (Dataset.roundtrip_table arrow0.serialize dCsv ⟨none, none⟩ oidA).err
      = none ∧
    (Dataset.roundtrip_table arrow0.serialize dCsv ⟨none, none⟩ oidA).copied
      = dCsv.table_bytes :=
  ⟨(c8_table_bytes_exact arrow0 inACsv [1] dCsv ⟨none, none⟩ oidA (by decide)).1,
   (c8_table_bytes_exact arrow0 inACsv [1] dCsv ⟨none, none⟩ oidA (by decide)).2.1,
   (c8_table_bytes_exact arrow0 inACsv [1] dCsv ⟨none, none⟩ oidA (by decide)).2.2.1⟩

/-- C9: when a Dataset has no direct byte access (can_use_file false, e.g.
a parquet source), roundtrip_file returns immediately: no store operation,
no output file, no state change; and the driver emits no file-operation
timing row for such a dataset, so roundtrip_file is never timed for it. -/
theorem c9_raw_requires_byte_access :
    (∀ d s content oid, d.can_use_file = false →
      Dataset.roundtrip_file d s content oid = ⟨none, s, 0, none, []⟩) ∧
    (∀ d R W, d.can_use_file = false →
      rowsFor d R W
        = [⟨d.filename, .stream, R - W⟩, ⟨d.filename, .table, R - W⟩]) ∧
    (∀ A f c d, mkDataset A f c = .ok d → d.type = "parquet".toList →
      d.can_use_file = false) := by
  refine ⟨fun d s content oid hc => ?_, fun d R W hc => ?_,
    fun A f c d h hty => ?_⟩
  · unfold Dataset.roundtrip_file
    rw [hc]
    rfl
  · unfold rowsFor
    rw [hc]
    rfl
  · have hcf := (mkDataset_ok h).2.2.1
    rw [hty] at hcf
    rw [hcf]
    decide

/-- C9 witness: the parquet dataset evaluated concretely. -/
theorem c9_raw_requires_byte_access_witness :
    Dataset.roundtrip_file dParquet ⟨none, none⟩ [5] oidA
      = ⟨none, ⟨none, none⟩, 0, none, []⟩ ∧
    rowsFor dParquet 1000 100
      = [⟨dParquet.filename, .stream, 1000 - 100⟩,
         ⟨dParquet.filename, .table, 1000 - 100⟩] ∧
    dParquet.can_use_file = false :=
  ⟨c9_raw_requires_byte_access.1 dParquet ⟨none, none⟩ [5] oidA (by decide),
   c9_raw_requires_byte_access.2.1 dParquet 1000 100 (by decide),
   c9_raw_requires_byte_access.2.2 arrow0 inPParquet [5] dParquet
     (by decide) (by decide)⟩

/-- C10: the output path is the input path with every "." replaced by
"_out." and then every "in" replaced by "out"; on the input path
in/points.csv this mangles the base name (points contains in) and yields
out/pooutts_out.csv. -/
theorem c10_out_path_mangling :
    (∀ f, outName f
      = pyReplace (pyReplace f ".".toList "_out.".toList)
          "in".toList "out".toList) ∧
    (∀ A f c d, mkDataset A f c = .ok d → d.out_filename = outName f) ∧
    outName "in/points.csv".toList = "out/pooutts_out.csv".toList := by
  exact ⟨fun f => rfl, fun A f c d h => (mkDataset_ok h).2.2.2.1, by decide⟩

/-- C10 witness: the path formula evaluated on the concrete csv dataset and
on in/points.csv. -/
theorem c10_out_path_mangling_witness :
    dCsv.out_filename = outName inACsv ∧
    outName "in/points.csv".toList = "out/pooutts_out.csv".toList :=
  ⟨c10_out_path_mangling.2.1 arrow0 inACsv [1] dCsv (by decide),
   c10_out_path_mangling.2.2⟩
